import Mathlib

set_option maxHeartbeats 1000000

/-
Shallow embedding of the TeamFinder realtime messaging service
(services/messaging-service/src/index.js) together with the Postgres schema
(infra/postgres/messaging/init.sql).

Conventions of the embedding:
* Postgres is `PgState` (conversations / conversation_members / messages rows);
  `gen_random_uuid()` is modelled as a fresh-id counter, `NOW()` as a
  monotonically increasing clock `now`.
* Redis is `RedisState`; hashes and keys are association lists, redis lists are
  Lean lists with the redis head at the list head; `JSON.stringify`/`JSON.parse`
  round-trips are the identity, so the parse-failure filter drops nothing.
* Socket.io broadcasts and emits are collected in an `Event` trace.
* Awaited redis calls can reject at runtime; where a claim depends on that
  failure mode the handler takes an explicit boolean describing whether the
  call succeeded (the rejection lands in the handler's catch block).
-/

namespace TeamFinder

/-- Conversation kinds stored in the `conversations.type` column
(`CHECK (type IN ('DM','CLASS','GROUP'))`). -/
inductive ConvType where
  | DM
  | CLASS
  | GROUP
deriving DecidableEq, Repr

/-- A row of the `conversations` table. -/
structure Conversation where
  id : String
  type : ConvType
  classId : Option String
  groupId : Option String
  createdAt : Nat
deriving DecidableEq, Repr

/-- A row of the `messages` table. -/
structure Message where
  id : Nat
  conversationId : String
  senderUserId : String
  body : String
  createdAt : Nat
deriving DecidableEq, Repr

/-- The durable store: the three messaging tables plus the id/clock authority.
`members` holds `(conversation_id, user_id)` pairs (primary key of
`conversation_members`). -/
structure PgState where
  conversations : List Conversation
  members : List (String × String)
  messages : List Message
  nextConvId : Nat
  nextMsgId : Nat
  now : Nat
deriving DecidableEq, Repr

/-- Association-list lookup (redis hash field read / keyed value read). -/
def alookup {α β : Type} [DecidableEq α] : List (α × β) → α → Option β
  | [], _ => none
  | (k, v) :: rest, key => if k = key then some v else alookup rest key

/-- Association-list write (redis hash field set / keyed value set). -/
def aset {α β : Type} [DecidableEq α] : List (α × β) → α → β → List (α × β)
  | [], key, val => [(key, val)]
  | (k, v) :: rest, key, val =>
      if k = key then (key, val) :: rest else (k, v) :: aset rest key val

/-- Association-list delete (redis HDEL). -/
def adel {α β : Type} [DecidableEq α] : List (α × β) → α → List (α × β)
  | [], _ => []
  | (k, v) :: rest, key => if k = key then adel rest key else (k, v) :: adel rest key

/-- Redis HINCRBY on a hash: a missing field counts as 0; returns the new value
and the updated hash. -/
def hincrby (h : List (String × Int)) (field : String) (delta : Int) :
    Int × List (String × Int) :=
  let current := (alookup h field).getD 0
  let updated := current + delta
  (updated, aset h field updated)

/-- Redis SADD on a set modelled as a duplicate-free list. -/
def saddList (s : List String) (x : String) : List String :=
  if s.contains x then s else s ++ [x]

/-- Redis SREM. -/
def sremList (s : List String) (x : String) : List String :=
  s.filter (fun y => y != x)

/-- The fast-path cache: recent-message lists keyed by conversation id
(`conversation:<id>:messages`), unread hashes keyed by user id (`unread:<id>`),
per-conversation presence count hashes and presence sets, the global online-user
set and the per-user socket counters. -/
structure RedisState where
  msgCache : List (String × List Message)
  unread : List (String × List (String × Int))
  convPresCount : List (String × List (String × Int))
  convPresSet : List (String × List String)
  onlineUsers : List String
  userSocketCount : List (String × Int)
deriving DecidableEq, Repr

/-- Server-pushed socket events observable by clients. -/
inductive Event where
  | messageNew (conversationId : String) (message : Message)
  | presenceUpdate (conversationId : String) (userId : String) (isOnline : Bool)
  | userPresence (userId : String) (isOnline : Bool)
  | typingUpdate (conversationId : String) (userId : String) (isTyping : Bool)
deriving DecidableEq, Repr

/-- ASCII whitespace test of JS `String.prototype.trim`. -/
def isWsChar (c : Char) : Bool :=
  c == ' ' || c == '\t' || c == '\n' || c == '\r'

/-- JS `String.prototype.trim`: strip whitespace from both ends, modelled over
the character list so that it evaluates inside the kernel. -/
def trimStr (s : String) : String :=
  String.mk (((s.data.dropWhile isWsChar).reverse.dropWhile isWsChar).reverse)

/-- `isMember` (index.js lines 214-222): `SELECT 1 FROM conversation_members
WHERE conversation_id = $1 AND user_id = $2`, true iff a row exists. -/
def isMember (pg : PgState) (conversationId userId : String) : Bool :=
  pg.members.any (fun m => m.1 == conversationId && m.2 == userId)

/-- Insertion step of an ascending sort by string order. -/
def insertAsc (x : String) : List String → List String
  | [] => [x]
  | y :: ys => if x ≤ y then x :: y :: ys else y :: insertAsc x ys

/-- Ascending sort (models `ORDER BY user_id ASC`). -/
def sortAsc (l : List String) : List String := l.foldr insertAsc []

/-- `getConversationMemberIds` (index.js lines 203-212): user ids of a
conversation's membership rows, ordered by user id ascending. -/
def getConversationMemberIds (pg : PgState) (conversationId : String) : List String :=
  sortAsc ((pg.members.filter (fun m => m.1 == conversationId)).map (fun m => m.2))

/-- Predicate of the `findExistingDmConversation` query (index.js lines
240-262): a DM conversation having both users as members and no member outside
the pair. -/
def dmMatches (ms : List (String × String)) (c : Conversation) (userA userB : String) : Bool :=
  decide (c.type = ConvType.DM)
    && ms.any (fun m => m.1 == c.id && m.2 == userA)
    && ms.any (fun m => m.1 == c.id && m.2 == userB)
    && ms.all (fun m => !(m.1 == c.id) || m.2 == userA || m.2 == userB)

/-- `findExistingDmConversation` (index.js lines 240-262), `LIMIT 1` modelled as
the first matching row. -/
def findExistingDmConversation (pg : PgState) (userA userB : String) : Option Conversation :=
  pg.conversations.find? (fun c => dmMatches pg.members c userA userB)

/-- Fresh id handed out by `gen_random_uuid()`, modelled with a counter. -/
def freshConvId (n : Nat) : String := "conv-" ++ toString n

/-- Whether a `(conversation_id, user_id)` row already exists (the
`ON CONFLICT (conversation_id, user_id) DO NOTHING` key). -/
def hasMemberRow (pg : PgState) (conversationId userId : String) : Bool :=
  pg.members.any (fun m => m.1 == conversationId && m.2 == userId)

/-- `INSERT INTO conversation_members ... ON CONFLICT DO NOTHING`. -/
def insertMemberIfAbsent (pg : PgState) (conversationId userId : String) : PgState :=
  if hasMemberRow pg conversationId userId then pg
  else { pg with members := pg.members ++ [(conversationId, userId)] }

/-- Response payload of `createOrGetDmConversation`. -/
structure DmPayload where
  conversation : Conversation
  members : List String
  created : Bool
deriving DecidableEq, Repr

/-- `createOrGetDmConversation` (index.js lines 313-367): look up, and if
absent begin a transaction, re-check, insert the conversation with its two
membership rows, commit.  Sequential semantics: the transactional re-check
reads the same state as the first lookup. -/
def createOrGetDmConversation (pg : PgState) (requesterId otherUserId : String) :
    DmPayload × PgState :=
  match findExistingDmConversation pg requesterId otherUserId with
  | some existing =>
      ({ conversation := existing,
         members := getConversationMemberIds pg existing.id,
         created := false }, pg)
  | none =>
      match findExistingDmConversation pg requesterId otherUserId with
      | some recheck =>
          ({ conversation := recheck,
             members := getConversationMemberIds pg recheck.id,
             created := false }, pg)
      | none =>
          let c : Conversation :=
            { id := freshConvId pg.nextConvId, type := ConvType.DM,
              classId := none, groupId := none, createdAt := pg.now }
          let pg1 : PgState :=
            { pg with conversations := pg.conversations ++ [c],
                      nextConvId := pg.nextConvId + 1 }
          let pg2 := insertMemberIfAbsent pg1 c.id requesterId
          let pg3 := insertMemberIfAbsent pg2 c.id otherUserId
          ({ conversation := c,
             members := getConversationMemberIds pg3 c.id,
             created := true }, pg3)

/-- One unread-counter bump: `redis.hincrby(unreadHashKey(userId), conversationId, 1)`. -/
def bumpOne (r : RedisState) (conversationId userId : String) : RedisState :=
  let hash0 := (alookup r.unread userId).getD []
  { r with unread := aset r.unread userId (hincrby hash0 conversationId 1).2 }

/-- The member loop of `persistAndFanoutMessage`: increment the unread counter
of every member except the sender, in member order. -/
def bumpUnreadForMembers : List String → String → String → RedisState → RedisState
  | [], _, _, rds => rds
  | userId :: rest, senderUserId, conversationId, rds =>
      bumpUnreadForMembers rest senderUserId conversationId
        (if userId == senderUserId then rds else bumpOne rds conversationId userId)

/-- Result of `persistAndFanoutMessage`. -/
structure SendOutcome where
  message : Message
  pg : PgState
  rds : RedisState
  events : List Event
deriving DecidableEq, Repr

/-- `persistAndFanoutMessage` (index.js lines 264-311): durable insert with
server-assigned id and timestamp, LPUSH + LTRIM 0 199 on the conversation's
recent-message cache, unread increment for every member except the sender,
kafka publish (no client-visible effect, elided), and `message:new` fan-out to
the conversation room. -/
def persistAndFanoutMessage (pg : PgState) (rds : RedisState)
    (conversationId senderUserId body : String) : SendOutcome :=
  let message : Message :=
    { id := pg.nextMsgId, conversationId := conversationId,
      senderUserId := senderUserId, body := body, createdAt := pg.now }
  let pg1 : PgState :=
    { pg with messages := pg.messages ++ [message],
              nextMsgId := pg.nextMsgId + 1, now := pg.now + 1 }
  let cache0 := (alookup rds.msgCache conversationId).getD []
  let cache1 := (message :: cache0).take 200
  let rds1 := { rds with msgCache := aset rds.msgCache conversationId cache1 }
  let memberIds := getConversationMemberIds pg1 conversationId
  let rds2 := bumpUnreadForMembers memberIds senderUserId conversationId rds1
  { message := message, pg := pg1, rds := rds2,
    events := [Event.messageNew conversationId message] }

/-- The message row assigned by the durable insert of the pipeline. -/
def newMsgOf (pg : PgState) (cid sender body : String) : Message :=
  { id := pg.nextMsgId, conversationId := cid, senderUserId := sender,
    body := body, createdAt := pg.now }

/-- The cache after the pipeline's LPUSH + LTRIM 0 199 of a new message. -/
def cachePushed (rds : RedisState) (cid : String) (m : Message) : RedisState :=
  { rds with
    msgCache := aset rds.msgCache cid ((m :: (alookup rds.msgCache cid).getD []).take 200) }

/-- HTTP reply of `POST /conversations/:conversationId/messages`. -/
inductive HttpSendResult where
  | invalidArgument (error : String)
  | forbidden (error : String)
  | created (message : Message)
deriving DecidableEq, Repr

/-- State after the HTTP send endpoint. -/
structure HttpSendState where
  result : HttpSendResult
  pg : PgState
  rds : RedisState
  events : List Event
deriving DecidableEq, Repr

/-- `POST /conversations/:conversationId/messages` (index.js lines 883-908):
`if (!body)` rejects only a falsy (empty) body, then the membership check,
then the shared pipeline. -/
def postConversationMessage (pg : PgState) (rds : RedisState)
    (conversationId senderUserId body : String) : HttpSendState :=
  if body == "" then
    { result := HttpSendResult.invalidArgument "body is required",
      pg := pg, rds := rds, events := [] }
  else if !(isMember pg conversationId senderUserId) then
    { result := HttpSendResult.forbidden "sender is not a member of this conversation",
      pg := pg, rds := rds, events := [] }
  else
    let out := persistAndFanoutMessage pg rds conversationId senderUserId body
    { result := HttpSendResult.created out.message,
      pg := out.pg, rds := out.rds, events := out.events }

/-- `joinConversationPresence` (index.js lines 369-383): HINCRBY +1 on the
conversation's per-user join-count hash; exactly on the transition to 1 the
user is SADDed to the conversation's online set and `presence:update`
online=true is broadcast to the room. -/
def joinConversationPresence (rds : RedisState) (conversationId userId : String) :
    RedisState × List Event :=
  let hash0 := (alookup rds.convPresCount conversationId).getD []
  let step := hincrby hash0 userId 1
  let rds1 := { rds with convPresCount := aset rds.convPresCount conversationId step.2 }
  if step.1 = 1 then
    let set0 := (alookup rds1.convPresSet conversationId).getD []
    let rds2 :=
      { rds1 with convPresSet := aset rds1.convPresSet conversationId (saddList set0 userId) }
    (rds2, [Event.presenceUpdate conversationId userId true])
  else
    (rds1, [])

/-- `leaveConversationPresence` (index.js lines 385-400): HINCRBY -1; when the
result is ≤ 0 the count field is HDELed, the user SREMed from the online set
and `presence:update` online=false broadcast to the room. -/
def leaveConversationPresence (rds : RedisState) (conversationId userId : String) :
    RedisState × List Event :=
  let hash0 := (alookup rds.convPresCount conversationId).getD []
  let step := hincrby hash0 userId (-1)
  if step.1 ≤ 0 then
    let hash1 := adel step.2 userId
    let set0 := (alookup rds.convPresSet conversationId).getD []
    let rds1 :=
      { rds with convPresCount := aset rds.convPresCount conversationId hash1,
                 convPresSet := aset rds.convPresSet conversationId (sremList set0 userId) }
    (rds1, [Event.presenceUpdate conversationId userId false])
  else
    ({ rds with convPresCount := aset rds.convPresCount conversationId step.2 }, [])

/-- `getConversationPresence` (index.js lines 402-404): SMEMBERS of the
conversation's online set. -/
def getConversationPresence (rds : RedisState) (conversationId : String) : List String :=
  (alookup rds.convPresSet conversationId).getD []

/-- `markUserOnline` (index.js lines 406-414). -/
def markUserOnline (rds : RedisState) (userId : String) : RedisState × List Event :=
  let count := (alookup rds.userSocketCount userId).getD 0 + 1
  let rds1 := { rds with userSocketCount := aset rds.userSocketCount userId count }
  if count = 1 then
    ({ rds1 with onlineUsers := saddList rds1.onlineUsers userId },
     [Event.userPresence userId true])
  else
    (rds1, [])

/-- `markUserOffline` (index.js lines 416-425). -/
def markUserOffline (rds : RedisState) (userId : String) : RedisState × List Event :=
  let count := (alookup rds.userSocketCount userId).getD 0 - 1
  if count ≤ 0 then
    ({ rds with userSocketCount := adel rds.userSocketCount userId,
                onlineUsers := sremList rds.onlineUsers userId },
     [Event.userPresence userId false])
  else
    ({ rds with userSocketCount := aset rds.userSocketCount userId count }, [])

/-- Acknowledgement payloads of the socket request/ack operations. -/
inductive Ack where
  | okJoin (conversationId : String) (onlineUserIds : List String)
  | okLeave (conversationId : String)
  | okTyping (conversationId : String)
  | okMessage (message : Message)
  | err (error : String)
deriving DecidableEq, Repr

/-- Per-connection state: the authenticated user and the connection's
`joinedConversations` set (a JS `Set<string>`, modelled as a duplicate-free
list).  Joining the socket.io room mirrors membership in this set. -/
structure SocketConn where
  userId : String
  joinedConversations : List String
deriving DecidableEq, Repr

/-- Result of a socket handler touching connection and redis state. -/
structure SocketStep where
  ack : Ack
  conn : SocketConn
  rds : RedisState
  events : List Event
deriving DecidableEq, Repr

/-- `conversation:join` handler (index.js lines 484-513).  The room join and
the `joinedConversations.add` happen before the awaited presence update;
`presenceCallOk = false` models that awaited redis call rejecting, which lands
in the catch block after the set was already mutated. -/
def conversationJoinHandler (pg : PgState) (rds : RedisState) (conn : SocketConn)
    (payloadConversationId : String) (presenceCallOk : Bool) : SocketStep :=
  let conversationId := trimStr payloadConversationId
  if conversationId == "" then
    { ack := Ack.err "conversationId is required", conn := conn, rds := rds, events := [] }
  else if !(isMember pg conversationId conn.userId) then
    { ack := Ack.err "not a member of this conversation", conn := conn, rds := rds, events := [] }
  else
    let conn1 :=
      { conn with joinedConversations := saddList conn.joinedConversations conversationId }
    if presenceCallOk then
      let step := joinConversationPresence rds conversationId conn.userId
      let onlineUserIds := getConversationPresence step.1 conversationId
      { ack := Ack.okJoin conversationId onlineUserIds,
        conn := conn1, rds := step.1, events := step.2 }
    else
      { ack := Ack.err "failed to join conversation", conn := conn1, rds := rds, events := [] }

/-- `conversation:leave` handler (index.js lines 515-531): no membership or
joined-set check; the connection leaves the room, the id is deleted from the
joined set, and the presence decrement always runs. -/
def conversationLeaveHandler (rds : RedisState) (conn : SocketConn)
    (payloadConversationId : String) : SocketStep :=
  let conversationId := trimStr payloadConversationId
  if conversationId == "" then
    { ack := Ack.err "conversationId is required", conn := conn, rds := rds, events := [] }
  else
    let conn1 :=
      { conn with joinedConversations :=
          conn.joinedConversations.filter (fun c => c != conversationId) }
    let step := leaveConversationPresence rds conversationId conn.userId
    { ack := Ack.okLeave conversationId, conn := conn1, rds := step.1, events := step.2 }

/-- `typing:start` handler (index.js lines 533-552): requires the conversation
to be in the connection's joined set; broadcasts to the other room members. -/
def typingStartHandler (conn : SocketConn) (payloadConversationId : String) :
    Ack × List Event :=
  let conversationId := trimStr payloadConversationId
  if conversationId == "" then
    (Ack.err "conversationId is required", [])
  else if !(conn.joinedConversations.contains conversationId) then
    (Ack.err "join conversation before typing", [])
  else
    (Ack.okTyping conversationId,
     [Event.typingUpdate conversationId conn.userId true])

/-- `typing:stop` handler (index.js lines 554-573). -/
def typingStopHandler (conn : SocketConn) (payloadConversationId : String) :
    Ack × List Event :=
  let conversationId := trimStr payloadConversationId
  if conversationId == "" then
    (Ack.err "conversationId is required", [])
  else if !(conn.joinedConversations.contains conversationId) then
    (Ack.err "join conversation before typing", [])
  else
    (Ack.okTyping conversationId,
     [Event.typingUpdate conversationId conn.userId false])

/-- Result of the streaming `message:send` handler. -/
structure SendStep where
  ack : Ack
  pg : PgState
  rds : RedisState
  events : List Event
deriving DecidableEq, Repr

/-- `message:send` handler (index.js lines 575-597): trims conversation id and
body, validates both non-empty, checks membership via the directory (never the
joined set), then runs the shared pipeline. -/
def messageSendHandler (pg : PgState) (rds : RedisState) (conn : SocketConn)
    (payloadConversationId payloadBody : String) : SendStep :=
  let conversationId := trimStr payloadConversationId
  let body := trimStr payloadBody
  if conversationId == "" || body == "" then
    { ack := Ack.err "conversationId and body are required",
      pg := pg, rds := rds, events := [] }
  else if !(isMember pg conversationId conn.userId) then
    { ack := Ack.err "not a member of this conversation",
      pg := pg, rds := rds, events := [] }
  else
    let out := persistAndFanoutMessage pg rds conversationId conn.userId body
    { ack := Ack.okMessage out.message, pg := out.pg, rds := out.rds, events := out.events }

/-- Insertion step of a descending sort by creation time
(`ORDER BY created_at DESC`). -/
def insertByCreatedDesc (m : Message) : List Message → List Message
  | [] => [m]
  | y :: ys => if y.createdAt ≤ m.createdAt then m :: y :: ys else y :: insertByCreatedDesc m ys

/-- The rows of `SELECT ... FROM messages WHERE conversation_id = $1 ORDER BY
created_at DESC`. -/
def messagesDesc (pg : PgState) (conversationId : String) : List Message :=
  (pg.messages.filter (fun m => m.conversationId == conversationId)).foldr insertByCreatedDesc []

/-- HTTP reply of `GET /conversations/:conversationId/messages`. -/
inductive ListMessagesResult where
  | forbidden (error : String)
  | ok (source : String) (messages : List Message)
deriving DecidableEq, Repr

/-- State after the list-messages endpoint. -/
structure ListStep where
  result : ListMessagesResult
  rds : RedisState
deriving DecidableEq, Repr

/-- `GET /conversations/:conversationId/messages` (index.js lines 910-963):
membership check; LRANGE 0 (limit-1) of the cache list; a non-empty slice is
parsed, filtered and reversed and served without touching postgres; otherwise
the durable rows (descending, LIMIT limit) are reversed into ascending order
and the cache is repopulated by LPUSHing `[...messages].reverse()` in order,
then LTRIM 0 199. -/
def listConversationMessages (pg : PgState) (rds : RedisState)
    (conversationId requesterId : String) (limitRaw : Nat) : ListStep :=
  if !(isMember pg conversationId requesterId) then
    { result := ListMessagesResult.forbidden "not a member of this conversation", rds := rds }
  else
    let limit := min (max limitRaw 1) 200
    let cachedFull := (alookup rds.msgCache conversationId).getD []
    let cached := cachedFull.take limit
    if cached.length > 0 then
      { result := ListMessagesResult.ok "redis" cached.reverse, rds := rds }
    else
      let rows := (messagesDesc pg conversationId).take limit
      let messages := rows.reverse
      if messages.length > 0 then
        let newList := (messages.reverse.foldl (fun acc m => m :: acc) cachedFull).take 200
        { result := ListMessagesResult.ok "postgres" messages,
          rds := { rds with msgCache := aset rds.msgCache conversationId newList } }
      else
        { result := ListMessagesResult.ok "postgres" messages, rds := rds }

/-- `uniqueUserIds` (index.js lines 70-82): trim each value, drop empties and
duplicates, keep first occurrences in order. -/
def uniqueUserIds (values : List String) : List String :=
  values.foldl
    (fun acc v =>
      let userId := trimStr v
      if userId == "" || acc.contains userId then acc else acc ++ [userId])
    []

/-- Hexadecimal digit test used by the UUID shape check. -/
def isHexChar (c : Char) : Bool :=
  (('0' ≤ c) && (c ≤ '9')) || (('a' ≤ c) && (c ≤ 'f')) || (('A' ≤ c) && (c ≤ 'F'))

/-- Per-position character test of the `looksLikeUuid` regular expression
(index.js lines 64-68): hyphens at 8/13/18/23, version digit 1-5 at 14,
variant 8/9/a/b at 19, hex elsewhere. -/
def uuidCharOk (i : Nat) (c : Char) : Bool :=
  if i == 8 || i == 13 || i == 18 || i == 23 then c == '-'
  else if i == 14 then ('1' ≤ c) && (c ≤ '5')
  else if i == 19 then
    c == '8' || c == '9' || c == 'a' || c == 'A' || c == 'b' || c == 'B'
  else isHexChar c

/-- `looksLikeUuid` (index.js lines 64-68). -/
def looksLikeUuid (value : String) : Bool :=
  let chars := (trimStr value).data
  chars.length == 36 && chars.enum.all (fun p => uuidCharOk p.1 p.2)

/-- `DELETE FROM conversations WHERE id = $1` together with the schema's
`ON DELETE CASCADE` on `conversation_members` and `messages`
(init.sql lines 11-23). -/
def deleteConversationCascade (pg : PgState) (conversationId : String) : PgState :=
  { pg with
    conversations := pg.conversations.filter (fun c => c.id != conversationId),
    members := pg.members.filter (fun m => m.1 != conversationId),
    messages := pg.messages.filter (fun m => m.conversationId != conversationId) }

/-- The `SELECT ... WHERE type = 'GROUP' AND group_id = $1 FOR UPDATE` lookup of
the sync endpoint; the partial unique index makes at most one row match. -/
def findGroupConversation (pg : PgState) (groupId : String) : Option Conversation :=
  pg.conversations.find?
    (fun c => decide (c.type = ConvType.GROUP) && c.groupId == some groupId)

/-- HTTP reply of `POST /internal/group-conversations/sync`. -/
inductive SyncResult where
  | badRequest (error : String)
  | deletedReply (groupId : String) (deleted : Bool)
  | syncedReply (groupId : String) (conversation : Conversation) (memberUserIds : List String)
deriving DecidableEq, Repr

/-- State after the sync endpoint. -/
structure SyncStep where
  result : SyncResult
  pg : PgState
  rds : RedisState
  events : List Event
deriving DecidableEq, Repr

/-- `POST /internal/group-conversations/sync` (index.js lines 620-716).  With an
empty desired member set the GROUP conversation row is deleted (cascading to
memberships and messages) and `{deleted}` returned; otherwise the conversation
is created or its class id refreshed, desired members upserted and undesired
membership rows deleted.  The handler performs no redis operation and emits no
socket event on any path. -/
def syncGroupConversations (pg : PgState) (rds : RedisState)
    (groupIdRaw classIdRaw : String) (memberUserIdsRaw : List String) : SyncStep :=
  let groupId := trimStr groupIdRaw
  let classId : Option String := if trimStr classIdRaw == "" then none else some (trimStr classIdRaw)
  let memberUserIds := uniqueUserIds memberUserIdsRaw
  if groupId == "" then
    { result := SyncResult.badRequest "groupId is required",
      pg := pg, rds := rds, events := [] }
  else if !(looksLikeUuid groupId) then
    { result := SyncResult.badRequest "groupId must be a valid UUID",
      pg := pg, rds := rds, events := [] }
  else
    let existing := findGroupConversation pg groupId
    if memberUserIds.isEmpty then
      match existing with
      | some c =>
          { result := SyncResult.deletedReply groupId true,
            pg := deleteConversationCascade pg c.id, rds := rds, events := [] }
      | none =>
          { result := SyncResult.deletedReply groupId false,
            pg := pg, rds := rds, events := [] }
    else
      let ensured : Conversation × PgState :=
        match existing with
        | none =>
            let c : Conversation :=
              { id := freshConvId pg.nextConvId, type := ConvType.GROUP,
                classId := classId, groupId := some groupId, createdAt := pg.now }
            (c, { pg with conversations := pg.conversations ++ [c],
                          nextConvId := pg.nextConvId + 1 })
        | some c =>
            match classId with
            | some cls =>
                if c.classId ≠ some cls then
                  let c2 := { c with classId := some cls }
                  (c2, { pg with conversations :=
                          pg.conversations.map (fun x => if x.id == c.id then c2 else x) })
                else (c, pg)
            | none => (c, pg)
      let conversation := ensured.1
      let pg1 := ensured.2
      let pg2 := memberUserIds.foldl
        (fun acc userId => insertMemberIfAbsent acc conversation.id userId) pg1
      let pg3 :=
        { pg2 with
          members := pg2.members.filter
            (fun m => !(m.1 == conversation.id) || memberUserIds.contains m.2) }
      { result := SyncResult.syncedReply groupId conversation
          (getConversationMemberIds pg3 conversation.id),
        pg := pg3, rds := rds, events := [] }

/-- Per-user per-conversation unread counter as read back from redis
(`HGET unread:<userId> <conversationId>`, missing = 0). -/
def unreadCountOf (rds : RedisState) (userId conversationId : String) : Int :=
  (alookup ((alookup rds.unread userId).getD []) conversationId).getD 0

/-- Per-user per-conversation presence join counter
(`HGET presence:conversation:<id>:counts <userId>`, missing = 0). -/
def convPresCountOf (rds : RedisState) (conversationId userId : String) : Int :=
  (alookup ((alookup rds.convPresCount conversationId).getD []) userId).getD 0

/-- The conversation row inserted by the DM-creation transaction. -/
def newConvOf (pg : PgState) : Conversation :=
  { id := freshConvId pg.nextConvId, type := ConvType.DM,
    classId := none, groupId := none, createdAt := pg.now }

/-- The durable state after the DM-creation transaction commits: the new
conversation row plus its two membership rows. -/
def pgAfterDmCreate (pg : PgState) (requesterId otherUserId : String) : PgState :=
  { pg with
    conversations := pg.conversations ++ [newConvOf pg],
    members := pg.members ++
      [(freshConvId pg.nextConvId, requesterId), (freshConvId pg.nextConvId, otherUserId)],
    nextConvId := pg.nextConvId + 1 }

/-- Empty redis state (fresh cache). -/
def rds0 : RedisState :=
  { msgCache := [], unread := [], convPresCount := [], convPresSet := [],
    onlineUsers := [], userSocketCount := [] }

/-- Fixture: a DM conversation `c1` between alice and bob. -/
def convA : Conversation :=
  { id := "c1", type := ConvType.DM, classId := none, groupId := none, createdAt := 0 }

/-- Fixture: durable state holding only `c1` with members alice and bob. -/
def pgA : PgState :=
  { conversations := [convA], members := [("c1", "alice"), ("c1", "bob")],
    messages := [], nextConvId := 1, nextMsgId := 1, now := 0 }

/-- Fixture: the whitespace-bodied message the HTTP endpoint persists on `pgA`. -/
def msgWs : Message :=
  { id := 1, conversationId := "c1", senderUserId := "alice", body := "   ", createdAt := 0 }

/-- Fixture: first message of `c1`. -/
def msgOne : Message :=
  { id := 1, conversationId := "c1", senderUserId := "alice", body := "first", createdAt := 0 }

/-- Fixture: second, later message of `c1`. -/
def msgTwo : Message :=
  { id := 2, conversationId := "c1", senderUserId := "bob", body := "second", createdAt := 1 }

/-- Fixture: `pgA` after both messages were sent. -/
def pgMsgs : PgState :=
  { pgA with messages := [msgOne, msgTwo], nextMsgId := 3, now := 2 }

/-- Fixture: a well-formed external group id. -/
def gidG : String := "11111111-1111-1111-8111-111111111111"

/-- Fixture: the GROUP conversation tied to `gidG`. -/
def convG : Conversation :=
  { id := "cg", type := ConvType.GROUP, classId := none, groupId := some gidG, createdAt := 0 }

/-- Fixture: a message of the group conversation. -/
def msgG : Message :=
  { id := 1, conversationId := "cg", senderUserId := "alice", body := "hello team", createdAt := 0 }

/-- Fixture: durable state holding the group conversation with alice and bob. -/
def pgG : PgState :=
  { conversations := [convG], members := [("cg", "alice"), ("cg", "bob")],
    messages := [msgG], nextConvId := 2, nextMsgId := 2, now := 1 }

/-- Fixture: redis state carrying live cache entries for the group conversation:
a cached message list, an unread counter for bob, and presence for alice. -/
def rdsG : RedisState :=
  { msgCache := [("cg", [msgG])], unread := [("bob", [("cg", 3)])],
    convPresCount := [("cg", [("alice", 1)])], convPresSet := [("cg", ["alice"])],
    onlineUsers := ["alice"], userSocketCount := [("alice", 1)] }

/-- Fixture: a fresh connection of alice with an empty joined set. -/
def connAlice : SocketConn := { userId := "alice", joinedConversations := [] }

/-- Fixture: a fresh connection of carol (not a member of `c1`). -/
def connCarol : SocketConn := { userId := "carol", joinedConversations := [] }

/-- Fixture: alice already joined `c1` once (count 1). -/
def rdsPres1 : RedisState := { rds0 with convPresCount := [("c1", [("alice", 1)])] }

/-- Fixture: alice joined `c1` on two connections (count 2). -/
def rdsPres2 : RedisState := { rds0 with convPresCount := [("c1", [("alice", 2)])] }

/-- Fixture: completely empty durable state. -/
def pgEmpty : PgState :=
  { conversations := [], members := [], messages := [], nextConvId := 0, nextMsgId := 0, now := 0 }

theorem alookup_aset_self {α β : Type} [DecidableEq α] (l : List (α × β)) (k : α) (v : β) :
    alookup (aset l k v) k = some v := by
  induction l with
  | nil => simp [aset, alookup]
  | cons p rest ih =>
      obtain ⟨k', v'⟩ := p
      by_cases h : k' = k
      · simp [aset, h, alookup]
      · simp [aset, h, alookup, ih]

theorem alookup_aset_ne {α β : Type} [DecidableEq α] (l : List (α × β)) (k k' : α) (v : β)
    (h : k' ≠ k) : alookup (aset l k v) k' = alookup l k' := by
  induction l with
  | nil =>
      simp only [aset, alookup]
      rw [if_neg (fun hn => h hn.symm)]
  | cons p rest ih =>
      obtain ⟨k₀, v₀⟩ := p
      simp only [aset]
      by_cases h0 : k₀ = k
      · subst h0
        rw [if_pos rfl]
        simp only [alookup]
        rw [if_neg (fun hn => h hn.symm), if_neg (fun hn => h hn.symm)]
      · rw [if_neg h0]
        simp only [alookup]
        by_cases h1 : k₀ = k'
        · rw [if_pos h1, if_pos h1]
        · rw [if_neg h1, if_neg h1]
          exact ih

theorem alookup_adel_self {α β : Type} [DecidableEq α] (l : List (α × β)) (k : α) :
    alookup (adel l k) k = none := by
  induction l with
  | nil => simp [adel, alookup]
  | cons p rest ih =>
      obtain ⟨k', v'⟩ := p
      by_cases h : k' = k
      · simp [adel, h, ih]
      · simp [adel, h, alookup, ih]

theorem not_mem_sremList_self (s : List String) (x : String) : x ∉ sremList s x := by
  intro h
  simp [sremList, List.mem_filter] at h

theorem beq_false_of_ne {α : Type} [BEq α] [LawfulBEq α] {a b : α} (h : a ≠ b) :
    (a == b) = false := by
  cases hbe : (a == b) with
  | false => rfl
  | true => exact absurd (eq_of_beq hbe) h

theorem any_false_list {α : Type} {p : α → Bool} {l : List α} (h : ∀ x ∈ l, p x = false) :
    l.any p = false := by
  induction l with
  | nil => rfl
  | cons x xs ih =>
      simp only [List.any_cons]
      rw [h x (by simp), ih (fun y hy => h y (List.mem_cons_of_mem _ hy))]
      rfl

theorem all_true_list {α : Type} {p : α → Bool} {l : List α} (h : ∀ x ∈ l, p x = true) :
    l.all p = true := by
  induction l with
  | nil => rfl
  | cons x xs ih =>
      simp only [List.all_cons]
      rw [h x (by simp), ih (fun y hy => h y (List.mem_cons_of_mem _ hy))]
      rfl

theorem all_congr_list {α : Type} {p q : α → Bool} (l : List α) (h : ∀ x ∈ l, p x = q x) :
    l.all p = l.all q := by
  induction l with
  | nil => rfl
  | cons x xs ih =>
      simp only [List.all_cons]
      rw [h x (by simp), ih (fun y hy => h y (List.mem_cons_of_mem _ hy))]

theorem find?_congr_list {α : Type} {p q : α → Bool} (l : List α) (h : ∀ x ∈ l, p x = q x) :
    l.find? p = l.find? q := by
  induction l with
  | nil => rfl
  | cons x xs ih =>
      simp only [List.find?]
      rw [h x (by simp), ih (fun y hy => h y (List.mem_cons_of_mem _ hy))]

theorem find?_append_of_none {α : Type} {p : α → Bool} {l₁ : List α} (l₂ : List α)
    (h : l₁.find? p = none) : (l₁ ++ l₂).find? p = l₂.find? p := by
  induction l₁ with
  | nil => rfl
  | cons x xs ih =>
      simp only [List.find?] at h ⊢
      cases hp : p x with
      | true => rw [hp] at h; exact absurd h (by simp)
      | false =>
          rw [hp] at h
          simp only [List.cons_append, List.find?, hp]
          exact ih h

theorem filter_false_list {α : Type} {p : α → Bool} {l : List α} (h : ∀ x ∈ l, p x = false) :
    l.filter p = [] := by
  induction l with
  | nil => rfl
  | cons x xs ih =>
      simp only [List.filter, h x (by simp)]
      exact ih (fun y hy => h y (List.mem_cons_of_mem _ hy))

theorem insertAsc_perm (x : String) (l : List String) : (insertAsc x l).Perm (x :: l) := by
  induction l with
  | nil => exact List.Perm.refl _
  | cons y ys ih =>
      simp only [insertAsc]
      split
      · exact List.Perm.refl _
      · exact (ih.cons y).trans (List.Perm.swap x y ys)

theorem sortAsc_perm (l : List String) : (sortAsc l).Perm l := by
  induction l with
  | nil => exact List.Perm.refl _
  | cons x xs ih =>
      exact (insertAsc_perm x (sortAsc xs)).trans (ih.cons x)

theorem bool_swap_mid (t A B E : Bool) : (((t && A) && B) && E) = (((t && B) && A) && E) := by
  cases t <;> cases A <;> cases B <;> cases E <;> rfl

theorem mem_sortAsc {x : String} {l : List String} : x ∈ sortAsc l ↔ x ∈ l :=
  (sortAsc_perm l).mem_iff

theorem nodup_sortAsc {l : List String} (h : l.Nodup) : (sortAsc l).Nodup :=
  ((sortAsc_perm l).nodup_iff).mpr h

theorem nodup_getConversationMemberIds (pg : PgState) (cid : String)
    (hnd : pg.members.Nodup) : (getConversationMemberIds pg cid).Nodup := by
  apply nodup_sortAsc
  apply List.Nodup.map_on
  · intro x hx y hy hxy
    have hx1 : x.1 = cid := eq_of_beq (List.mem_filter.mp hx).2
    have hy1 : y.1 = cid := eq_of_beq (List.mem_filter.mp hy).2
    obtain ⟨x1, x2⟩ := x
    obtain ⟨y1, y2⟩ := y
    simp only at hx1 hy1 hxy
    subst hx1
    subst hy1
    subst hxy
    rfl
  · exact List.Nodup.filter _ hnd

theorem mem_getConversationMemberIds {pg : PgState} {cid u : String}
    (h : (cid, u) ∈ pg.members) : u ∈ getConversationMemberIds pg cid := by
  unfold getConversationMemberIds
  rw [mem_sortAsc]
  exact List.mem_map.mpr ⟨(cid, u), List.mem_filter.mpr ⟨h, by simp⟩, rfl⟩

theorem unreadCountOf_bumpOne_self (r : RedisState) (cid u : String) :
    unreadCountOf (bumpOne r cid u) u cid = unreadCountOf r u cid + 1 := by
  simp [bumpOne, unreadCountOf, hincrby, alookup_aset_self]

theorem unreadCountOf_bumpOne_ne (r : RedisState) (cid cid' u u' : String) (h : u' ≠ u) :
    unreadCountOf (bumpOne r cid u) u' cid' = unreadCountOf r u' cid' := by
  simp [bumpOne, unreadCountOf, alookup_aset_ne _ _ _ _ h]

theorem bump_members_sender (sender cid : String) :
    ∀ (l : List String) (r : RedisState),
      unreadCountOf (bumpUnreadForMembers l sender cid r) sender cid
        = unreadCountOf r sender cid
  | [], _ => rfl
  | x :: xs, r => by
      simp only [bumpUnreadForMembers]
      cases hx : (x == sender) with
      | true =>
          rw [if_pos rfl]
          exact bump_members_sender sender cid xs r
      | false =>
          rw [if_neg (by simp)]
          rw [bump_members_sender sender cid xs _]
          exact unreadCountOf_bumpOne_ne r cid cid x sender
            (fun hn => by rw [hn] at hx; simp at hx)

theorem bump_members_not_mem (sender cid u cid' : String) :
    ∀ (l : List String) (r : RedisState), u ∉ l →
      unreadCountOf (bumpUnreadForMembers l sender cid r) u cid'
        = unreadCountOf r u cid'
  | [], _, _ => rfl
  | x :: xs, r, hu => by
      have hux : u ≠ x := fun h => hu (by rw [h]; exact List.mem_cons_self x xs)
      have hu2 : u ∉ xs := fun h => hu (List.mem_cons_of_mem _ h)
      simp only [bumpUnreadForMembers]
      cases hx : (x == sender) with
      | true =>
          rw [if_pos rfl]
          exact bump_members_not_mem sender cid u cid' xs r hu2
      | false =>
          rw [if_neg (by simp)]
          rw [bump_members_not_mem sender cid u cid' xs _ hu2]
          exact unreadCountOf_bumpOne_ne r cid cid' x u hux

theorem bump_members_mem (sender cid : String) :
    ∀ (l : List String) (u : String) (r : RedisState), l.Nodup → u ∈ l → u ≠ sender →
      unreadCountOf (bumpUnreadForMembers l sender cid r) u cid
        = unreadCountOf r u cid + 1
  | [], u, _, _, hu, _ => absurd hu (List.not_mem_nil u)
  | x :: xs, u, r, hnd, hu, hus => by
      obtain ⟨hx_nin, hnd2⟩ := List.nodup_cons.mp hnd
      simp only [bumpUnreadForMembers]
      rcases List.mem_cons.mp hu with rfl | hu2
      · rw [if_neg (by simp [beq_false_of_ne hus])]
        rw [bump_members_not_mem sender cid u cid xs _ hx_nin]
        exact unreadCountOf_bumpOne_self r cid u
      · have hux : u ≠ x := fun h => hx_nin (h ▸ hu2)
        cases hx : (x == sender) with
        | true =>
            rw [if_pos rfl]
            exact bump_members_mem sender cid xs u r hnd2 hu2 hus
        | false =>
            rw [if_neg (by simp)]
            rw [bump_members_mem sender cid xs u _ hnd2 hu2 hus]
            rw [unreadCountOf_bumpOne_ne r cid cid x u hux]

theorem dmMatches_symm (ms : List (String × String)) (c : Conversation) (a b : String) :
    dmMatches ms c a b = dmMatches ms c b a := by
  unfold dmMatches
  have hall : ms.all (fun m => !(m.1 == c.id) || m.2 == a || m.2 == b)
      = ms.all (fun m => !(m.1 == c.id) || m.2 == b || m.2 == a) :=
    all_congr_list ms (fun m _ => by
      cases h1 : (m.1 == c.id) <;> cases h2 : (m.2 == a) <;> cases h3 : (m.2 == b) <;> rfl)
  rw [hall]
  exact bool_swap_mid _ _ _ _

theorem findExistingDm_symm (pg : PgState) (a b : String) :
    findExistingDmConversation pg a b = findExistingDmConversation pg b a :=
  find?_congr_list _ (fun c _ => dmMatches_symm pg.members c a b)

theorem dmMatches_append (ms extra : List (String × String)) (c : Conversation) (a b : String)
    (hid : ∀ e ∈ extra, e.1 ≠ c.id) :
    dmMatches (ms ++ extra) c a b = dmMatches ms c a b := by
  unfold dmMatches
  rw [List.any_append, List.any_append, List.all_append]
  have h1 : extra.any (fun m => m.1 == c.id && m.2 == a) = false :=
    any_false_list (fun e he => by rw [beq_false_of_ne (hid e he)]; rfl)
  have h2 : extra.any (fun m => m.1 == c.id && m.2 == b) = false :=
    any_false_list (fun e he => by rw [beq_false_of_ne (hid e he)]; rfl)
  have h3 : extra.all (fun m => !(m.1 == c.id) || m.2 == a || m.2 == b) = true :=
    all_true_list (fun e he => by rw [beq_false_of_ne (hid e he)]; rfl)
  rw [h1, h2, h3]
  simp

theorem dmMatches_new (ms : List (String × String)) (c : Conversation) (a b : String)
    (htype : c.type = ConvType.DM)
    (hfresh : ∀ m ∈ ms, m.1 ≠ c.id) :
    dmMatches (ms ++ [(c.id, a), (c.id, b)]) c a b = true := by
  unfold dmMatches
  rw [List.any_append, List.any_append, List.all_append]
  have h3 : ms.all (fun m => !(m.1 == c.id) || m.2 == a || m.2 == b) = true :=
    all_true_list (fun e he => by rw [beq_false_of_ne (hfresh e he)]; rfl)
  rw [h3]
  simp [htype]

/-- C8: the per-conversation presence-online broadcast fires only on the 0-to-1
transition of the user's per-conversation join counter (a join with the counter
already at 1 or more emits nothing), and the presence-offline broadcast fires
only when the counter returns to 0 (a leave with the counter at 2 or more emits
nothing; a leave from exactly 1 emits offline). -/
theorem presence_broadcast_only_on_transitions (rds : RedisState) (cid uid : String) :
    (1 ≤ convPresCountOf rds cid uid → (joinConversationPresence rds cid uid).2 = [])
    ∧ (convPresCountOf rds cid uid = 0 →
        (joinConversationPresence rds cid uid).2 = [Event.presenceUpdate cid uid true])
    ∧ (2 ≤ convPresCountOf rds cid uid → (leaveConversationPresence rds cid uid).2 = [])
    ∧ (convPresCountOf rds cid uid = 1 →
        (leaveConversationPresence rds cid uid).2 = [Event.presenceUpdate cid uid false]) := by
  refine ⟨fun h => ?_, fun h => ?_, fun h => ?_, fun h => ?_⟩ <;>
    simp only [convPresCountOf] at h <;>
    simp only [joinConversationPresence, leaveConversationPresence, hincrby] <;>
    split
  · omega
  · rfl
  · rfl
  · omega
  · omega
  · rfl
  · rfl
  · omega

/-- C8 witness: with the counter at 1 a second join emits nothing; from 0 the
join emits online; with the counter at 2 a leave emits nothing; from 1 the
leave emits offline. -/
theorem presence_broadcast_only_on_transitions_witness :
    (joinConversationPresence rdsPres1 "c1" "alice").2 = []
    ∧ (joinConversationPresence rds0 "c1" "alice").2 = [Event.presenceUpdate "c1" "alice" true]
    ∧ (leaveConversationPresence rdsPres2 "c1" "alice").2 = []
    ∧ (leaveConversationPresence rdsPres1 "c1" "alice").2
        = [Event.presenceUpdate "c1" "alice" false] :=
  ⟨(presence_broadcast_only_on_transitions rdsPres1 "c1" "alice").1 (by decide),
   (presence_broadcast_only_on_transitions rds0 "c1" "alice").2.1 (by decide),
   (presence_broadcast_only_on_transitions rdsPres2 "c1" "alice").2.2.1 (by decide),
   (presence_broadcast_only_on_transitions rdsPres1 "c1" "alice").2.2.2 (by decide)⟩

/-- C9: for a member of the conversation, the streaming `message:send` succeeds
(ok acknowledgement carrying the persisted message) even though the connection
never joined the conversation, while `typing:start` and `typing:stop` on the
same connection are rejected because the conversation is not in the joined
set. -/
theorem send_without_join_typing_needs_join (pg : PgState) (rds : RedisState)
    (conn : SocketConn) (pCid pBody : String)
    (hcid : (trimStr pCid == "") = false)
    (hbody : (trimStr pBody == "") = false)
    (hmem : isMember pg (trimStr pCid) conn.userId = true)
    (hnj : conn.joinedConversations.contains (trimStr pCid) = false) :
    (messageSendHandler pg rds conn pCid pBody).ack
        = Ack.okMessage (persistAndFanoutMessage pg rds (trimStr pCid) conn.userId (trimStr pBody)).message
    ∧ (typingStartHandler conn pCid).1 = Ack.err "join conversation before typing"
    ∧ (typingStopHandler conn pCid).1 = Ack.err "join conversation before typing" := by
  have hnj2 : trimStr pCid ∉ conn.joinedConversations := by simpa using hnj
  refine ⟨?_, ?_, ?_⟩
  · simp [messageSendHandler, hcid, hbody, hmem]
  · simp [typingStartHandler, hcid, hnj2]
  · simp [typingStopHandler, hcid, hnj2]

/-- C9 witness: alice is a member of `c1`, her connection has an empty joined
set, yet `message:send` acks ok while typing is rejected. -/
theorem send_without_join_typing_needs_join_witness :
    (messageSendHandler pgA rds0 connAlice "c1" "hello").ack
        = Ack.okMessage (persistAndFanoutMessage pgA rds0 "c1" "alice" "hello").message
    ∧ (typingStartHandler connAlice "c1").1 = Ack.err "join conversation before typing"
    ∧ (typingStopHandler connAlice "c1").1 = Ack.err "join conversation before typing" :=
  send_without_join_typing_needs_join pgA rds0 connAlice "c1" "hello"
    (by decide) (by decide) (by decide) (by decide)

/-- C10: a `conversation:leave` for a conversation the connection never joined
still acks ok; the HINCRBY decrements the per-conversation join counter of the
user from absent (0) to -1, and because -1 ≤ 0 the counter field is deleted,
the user is removed from the conversation's online set, and a presence-offline
update is broadcast to the room even though the user was never marked online
there. -/
theorem leave_never_joined_still_acks_and_goes_offline (rds : RedisState)
    (conn : SocketConn) (pCid : String)
    (hcid : (trimStr pCid == "") = false)
    (hnj : conn.joinedConversations.contains (trimStr pCid) = false)
    (habsent : alookup ((alookup rds.convPresCount (trimStr pCid)).getD []) conn.userId = none) :
    (conversationLeaveHandler rds conn pCid).ack = Ack.okLeave (trimStr pCid)
    ∧ (hincrby ((alookup rds.convPresCount (trimStr pCid)).getD []) conn.userId (-1)).1 = -1
    ∧ alookup ((alookup (conversationLeaveHandler rds conn pCid).rds.convPresCount
        (trimStr pCid)).getD []) conn.userId = none
    ∧ conn.userId ∉
        (alookup (conversationLeaveHandler rds conn pCid).rds.convPresSet (trimStr pCid)).getD []
    ∧ (conversationLeaveHandler rds conn pCid).events
        = [Event.presenceUpdate (trimStr pCid) conn.userId false] := by
  have hcount : ((alookup ((alookup rds.convPresCount (trimStr pCid)).getD [])
      conn.userId).getD 0 : Int) = 0 := by rw [habsent]; rfl
  refine ⟨?_, ?_, ?_, ?_, ?_⟩
  · simp [conversationLeaveHandler, hcid]
  · simp [hincrby, habsent]
  · simp only [conversationLeaveHandler, leaveConversationPresence, hincrby, hcid]
    rw [if_neg (by simp)]
    rw [if_pos (by rw [hcount]; decide)]
    simp [alookup_aset_self, alookup_adel_self]
  · simp only [conversationLeaveHandler, leaveConversationPresence, hincrby, hcid]
    rw [if_neg (by simp)]
    rw [if_pos (by rw [hcount]; decide)]
    simp only [alookup_aset_self, Option.getD_some]
    exact not_mem_sremList_self _ _
  · simp only [conversationLeaveHandler, leaveConversationPresence, hincrby, hcid]
    rw [if_neg (by simp)]
    rw [if_pos (by rw [hcount]; decide)]

/-- C10 witness: carol's fresh connection leaves `c1` which it never joined;
the leave acks ok, the counter goes to -1 and is deleted, and an offline
broadcast is emitted. -/
theorem leave_never_joined_witness :
    (conversationLeaveHandler rds0 connCarol "c1").ack = Ack.okLeave "c1"
    ∧ (hincrby ((alookup rds0.convPresCount "c1").getD []) "carol" (-1)).1 = -1
    ∧ alookup ((alookup (conversationLeaveHandler rds0 connCarol "c1").rds.convPresCount
        "c1").getD []) "carol" = none
    ∧ "carol" ∉
        (alookup (conversationLeaveHandler rds0 connCarol "c1").rds.convPresSet "c1").getD []
    ∧ (conversationLeaveHandler rds0 connCarol "c1").events
        = [Event.presenceUpdate "c1" "carol" false] :=
  leave_never_joined_still_acks_and_goes_offline rds0 connCarol "c1"
    (by decide) (by decide) (by decide)

/-- C5 is a code bug: the cache repopulation loop of the list-messages endpoint
LPUSHes `[...messages].reverse()` (newest first), leaving the redis list with
the OLDEST message at its head, while the send path and the cache read path
assume the head is the newest.  Consequence at a concrete input: with two
messages (createdAt 0 then 1) and an empty cache, the first GET returns the
ascending postgres order and repopulates the cache, but the second GET serves
the repopulated cache and returns the messages in DESCENDING order,
contradicting the claimed chronological ascending order. -/
theorem listMessages_descending_after_cache_repopulation :
    (listConversationMessages pgMsgs rds0 "c1" "bob" 50).result
        = ListMessagesResult.ok "postgres" [msgOne, msgTwo]
    ∧ (listConversationMessages pgMsgs
        (listConversationMessages pgMsgs rds0 "c1" "bob" 50).rds "c1" "bob" 50).result
        = ListMessagesResult.ok "redis" [msgTwo, msgOne]
    ∧ msgOne.createdAt < msgTwo.createdAt := by
  refine ⟨by decide, by decide, by decide⟩

/-- C1 counterexample: for the empty message body, a non-member's HTTP send is
rejected as InvalidArgument ("body is required", HTTP 400) before the
membership check ever runs, not as Forbidden — refuting the claim's "every
message body ... fails with Forbidden".  No message row is inserted. -/
theorem sendMessage_nonmember_empty_body_not_forbidden :
    (postConversationMessage pgA rds0 "c1" "carol" "").result
        = HttpSendResult.invalidArgument "body is required"
    ∧ (postConversationMessage pgA rds0 "c1" "carol" "").result
        ≠ HttpSendResult.forbidden "sender is not a member of this conversation"
    ∧ isMember pgA "c1" "carol" = false
    ∧ (postConversationMessage pgA rds0 "c1" "carol" "").pg.messages = pgA.messages := by
  refine ⟨by decide, by decide, by decide, by decide⟩

/-- C1 as amended: for a non-member sender, the HTTP send fails with 403
Forbidden whenever the body is non-empty (an empty body fails earlier with
InvalidArgument), the socket send acks the membership error whenever its
trimmed inputs are non-empty, and in all cases — any body — no message row is
inserted on either path. -/
theorem sendMessage_nonmember_rejected_no_insert
    (pg : PgState) (rds : RedisState) (cid uid body : String)
    (conn : SocketConn) (pCid pBody : String)
    (hm1 : isMember pg cid uid = false)
    (hm2 : isMember pg (trimStr pCid) conn.userId = false) :
    ((body == "") = false →
      (postConversationMessage pg rds cid uid body).result
          = HttpSendResult.forbidden "sender is not a member of this conversation")
    ∧ (postConversationMessage pg rds cid uid body).pg.messages = pg.messages
    ∧ (((trimStr pCid == "") = false) → ((trimStr pBody == "") = false) →
        (messageSendHandler pg rds conn pCid pBody).ack
            = Ack.err "not a member of this conversation")
    ∧ (messageSendHandler pg rds conn pCid pBody).pg.messages = pg.messages := by
  refine ⟨fun hb => ?_, ?_, fun hc hb => ?_, ?_⟩
  · simp [postConversationMessage, hb, hm1]
  · cases hb : (body == "") with
    | true => simp [postConversationMessage, hb]
    | false => simp [postConversationMessage, hb, hm1]
  · simp [messageSendHandler, hc, hb, hm2]
  · cases hc : (trimStr pCid == "") with
    | true => simp [messageSendHandler, hc]
    | false =>
        cases hb : (trimStr pBody == "") with
        | true => simp [messageSendHandler, hc, hb]
        | false => simp [messageSendHandler, hc, hb, hm2]

/-- C1 witness: carol is not a member of `c1`; her HTTP send of "hello" is
Forbidden and her socket send of "hi" acks the membership error; neither
inserts a row. -/
theorem sendMessage_nonmember_rejected_no_insert_witness :
    (postConversationMessage pgA rds0 "c1" "carol" "hello").result
        = HttpSendResult.forbidden "sender is not a member of this conversation"
    ∧ (postConversationMessage pgA rds0 "c1" "carol" "hello").pg.messages = pgA.messages
    ∧ (messageSendHandler pgA rds0 connCarol "c1" "hi").ack
        = Ack.err "not a member of this conversation"
    ∧ (messageSendHandler pgA rds0 connCarol "c1" "hi").pg.messages = pgA.messages :=
  ⟨(sendMessage_nonmember_rejected_no_insert pgA rds0 "c1" "carol" "hello" connCarol "c1" "hi"
      (by decide) (by decide)).1 (by decide),
   (sendMessage_nonmember_rejected_no_insert pgA rds0 "c1" "carol" "hello" connCarol "c1" "hi"
      (by decide) (by decide)).2.1,
   (sendMessage_nonmember_rejected_no_insert pgA rds0 "c1" "carol" "hello" connCarol "c1" "hi"
      (by decide) (by decide)).2.2.1 (by decide) (by decide),
   (sendMessage_nonmember_rejected_no_insert pgA rds0 "c1" "carol" "hello" connCarol "c1" "hi"
      (by decide) (by decide)).2.2.2⟩

/-- C2 counterexample: a whitespace-only body is empty after trimming, yet the
HTTP path checks only `!body` (falsy), so the member's send is accepted and the
message is persisted verbatim — refuting "every sendMessage call whose body is
empty after trimming fails with InvalidArgument and no message is
persisted". -/
theorem whitespace_body_persisted_on_http_path :
    trimStr "   " = ""
    ∧ (postConversationMessage pgA rds0 "c1" "alice" "   ").result
        = HttpSendResult.created msgWs
    ∧ (postConversationMessage pgA rds0 "c1" "alice" "   ").pg.messages
        = pgA.messages ++ [msgWs] := by
  refine ⟨by decide, by decide, by decide⟩

/-- C2 as amended: on the socket path any body that is empty after trimming is
rejected with the invalid-argument acknowledgement and nothing is persisted; on
the HTTP path only a strictly empty body is rejected with InvalidArgument
(whitespace-only bodies pass validation). -/
theorem empty_body_rejected_no_insert
    (pg : PgState) (rds : RedisState) (cid uid body : String)
    (conn : SocketConn) (pCid pBody : String) :
    ((body == "") = true →
      (postConversationMessage pg rds cid uid body).result
          = HttpSendResult.invalidArgument "body is required"
      ∧ (postConversationMessage pg rds cid uid body).pg.messages = pg.messages)
    ∧ ((trimStr pBody == "") = true →
      (messageSendHandler pg rds conn pCid pBody).ack
          = Ack.err "conversationId and body are required"
      ∧ (messageSendHandler pg rds conn pCid pBody).pg.messages = pg.messages) := by
  constructor
  · intro hb
    constructor <;> simp [postConversationMessage, hb]
  · intro hb
    constructor <;> simp [messageSendHandler, hb]

/-- C2 witness: the empty HTTP body and a whitespace socket body are both
rejected with no insert. -/
theorem empty_body_rejected_no_insert_witness :
    ((postConversationMessage pgA rds0 "c1" "alice" "").result
        = HttpSendResult.invalidArgument "body is required"
      ∧ (postConversationMessage pgA rds0 "c1" "alice" "").pg.messages = pgA.messages)
    ∧ ((messageSendHandler pgA rds0 connAlice "c1" "  ").ack
        = Ack.err "conversationId and body are required"
      ∧ (messageSendHandler pgA rds0 connAlice "c1" "  ").pg.messages = pgA.messages) :=
  ⟨(empty_body_rejected_no_insert pgA rds0 "c1" "alice" "" connAlice "c1" "  ").1 (by decide),
   (empty_body_rejected_no_insert pgA rds0 "c1" "alice" "" connAlice "c1" "  ").2 (by decide)⟩

/-- C3 counterexample: reconciling the group with an empty desired member set
deletes the conversation, its membership rows and its messages, but leaves the
redis state identical — bob's unread counter, the cached message list, and
alice's presence entries all survive — and emits no broadcast at all, refuting
"clears all cache state ... and broadcasts a conversation-removed event". -/
theorem group_disband_no_cache_clear_no_broadcast :
    (syncGroupConversations pgG rdsG gidG "" []).result = SyncResult.deletedReply gidG true
    ∧ (syncGroupConversations pgG rdsG gidG "" []).pg.conversations = []
    ∧ (syncGroupConversations pgG rdsG gidG "" []).pg.members = []
    ∧ (syncGroupConversations pgG rdsG gidG "" []).pg.messages = []
    ∧ (syncGroupConversations pgG rdsG gidG "" []).rds = rdsG
    ∧ (syncGroupConversations pgG rdsG gidG "" []).events = []
    ∧ unreadCountOf rdsG "bob" "cg" = 3
    ∧ (alookup rdsG.msgCache "cg").getD [] = [msgG]
    ∧ getConversationPresence rdsG "cg" = ["alice"] := by
  refine ⟨by decide, by decide, by decide, by decide, by decide, by decide,
    by decide, by decide, by decide⟩

/-- C3 as amended: a group-disbanded reconciliation (empty desired member set)
deletes the GROUP conversation together with its memberships and messages via
the schema cascade and reports `{deleted: true}`, but performs no cache
clearing (the redis state is returned unchanged) and emits no broadcast. -/
theorem group_disband_deletes_cascade_only
    (pg : PgState) (rds : RedisState) (gidRaw clsRaw : String) (c : Conversation)
    (hgid : (trimStr gidRaw == "") = false)
    (huuid : looksLikeUuid (trimStr gidRaw) = true)
    (hfind : findGroupConversation pg (trimStr gidRaw) = some c) :
    (syncGroupConversations pg rds gidRaw clsRaw []).result
        = SyncResult.deletedReply (trimStr gidRaw) true
    ∧ (syncGroupConversations pg rds gidRaw clsRaw []).pg = deleteConversationCascade pg c.id
    ∧ (syncGroupConversations pg rds gidRaw clsRaw []).rds = rds
    ∧ (syncGroupConversations pg rds gidRaw clsRaw []).events = [] := by
  refine ⟨?_, ?_, ?_, ?_⟩ <;>
    simp [syncGroupConversations, hgid, huuid, hfind, uniqueUserIds]

/-- C3 witness: the fixture group conversation is deleted with the cascade and
redis untouched. -/
theorem group_disband_deletes_cascade_only_witness :
    (syncGroupConversations pgG rdsG gidG "" []).result
        = SyncResult.deletedReply (trimStr gidG) true
    ∧ (syncGroupConversations pgG rdsG gidG "" []).pg = deleteConversationCascade pgG convG.id
    ∧ (syncGroupConversations pgG rdsG gidG "" []).rds = rdsG
    ∧ (syncGroupConversations pgG rdsG gidG "" []).events = [] :=
  group_disband_deletes_cascade_only pgG rdsG gidG "" convG (by decide) (by decide) (by decide)

/-- C7 counterexample: alice is a member of `c1`; her join fails because the
awaited presence update rejects, the handler acks an error — and yet the
connection's joined set changed from empty to containing `c1`, refuting "a
failed join leaves the connection's joined-set unchanged". -/
theorem failed_join_mutates_joined_set :
    (conversationJoinHandler pgA rds0 connAlice "c1" false).ack
        = Ack.err "failed to join conversation"
    ∧ (conversationJoinHandler pgA rds0 connAlice "c1" false).conn.joinedConversations = ["c1"]
    ∧ connAlice.joinedConversations = [] := by
  refine ⟨by decide, by decide, by decide⟩

/-- C7 as amended: a join that fails validation (empty conversation id) or
authorization (not a member) leaves the joined set unchanged; but a join that
fails because the presence update throws after the authorization check returns
an error acknowledgement with the conversation already added to the joined set
(and no redis change). -/
theorem join_failure_modes (pg : PgState) (rds : RedisState) (conn : SocketConn)
    (pCid : String) (presenceCallOk : Bool) :
    (((trimStr pCid == "") = true) →
        (conversationJoinHandler pg rds conn pCid presenceCallOk).ack
            = Ack.err "conversationId is required"
        ∧ (conversationJoinHandler pg rds conn pCid presenceCallOk).conn = conn)
    ∧ (((trimStr pCid == "") = false) → isMember pg (trimStr pCid) conn.userId = false →
        (conversationJoinHandler pg rds conn pCid presenceCallOk).ack
            = Ack.err "not a member of this conversation"
        ∧ (conversationJoinHandler pg rds conn pCid presenceCallOk).conn = conn)
    ∧ (((trimStr pCid == "") = false) → isMember pg (trimStr pCid) conn.userId = true →
        presenceCallOk = false →
        (conversationJoinHandler pg rds conn pCid presenceCallOk).ack
            = Ack.err "failed to join conversation"
        ∧ (conversationJoinHandler pg rds conn pCid presenceCallOk).conn.joinedConversations
            = saddList conn.joinedConversations (trimStr pCid)
        ∧ (conversationJoinHandler pg rds conn pCid presenceCallOk).rds = rds) := by
  refine ⟨fun h1 => ?_, fun h1 h2 => ?_, fun h1 h2 h3 => ?_⟩
  · constructor <;> simp [conversationJoinHandler, h1]
  · constructor <;> simp [conversationJoinHandler, h1, h2]
  · subst h3
    refine ⟨?_, ?_, ?_⟩ <;> simp [conversationJoinHandler, h1, h2]

/-- C7 witness: the three failure modes at concrete inputs; in the third the
joined set is mutated despite the error acknowledgement. -/
theorem join_failure_modes_witness :
    ((conversationJoinHandler pgA rds0 connAlice "  " true).ack
        = Ack.err "conversationId is required"
      ∧ (conversationJoinHandler pgA rds0 connAlice "  " true).conn = connAlice)
    ∧ ((conversationJoinHandler pgA rds0 connCarol "c1" true).ack
        = Ack.err "not a member of this conversation"
      ∧ (conversationJoinHandler pgA rds0 connCarol "c1" true).conn = connCarol)
    ∧ ((conversationJoinHandler pgA rds0 connAlice "c1" false).ack
        = Ack.err "failed to join conversation"
      ∧ (conversationJoinHandler pgA rds0 connAlice "c1" false).conn.joinedConversations
          = saddList connAlice.joinedConversations (trimStr "c1")
      ∧ (conversationJoinHandler pgA rds0 connAlice "c1" false).rds = rds0) :=
  ⟨(join_failure_modes pgA rds0 connAlice "  " true).1 (by decide),
   (join_failure_modes pgA rds0 connCarol "c1" true).2.1 (by decide) (by decide),
   (join_failure_modes pgA rds0 connAlice "c1" false).2.2 (by decide) (by decide) rfl⟩

/-- Re-expression of the redis state produced by `persistAndFanoutMessage`:
the cache push followed by the unread loop over the conversation's members. -/
theorem persistAndFanoutMessage_rds (pg : PgState) (rds : RedisState)
    (cid sender body : String) :
    (persistAndFanoutMessage pg rds cid sender body).rds
      = bumpUnreadForMembers (getConversationMemberIds pg cid) sender cid
          (cachePushed rds cid (newMsgOf pg cid sender body)) := rfl

/-- C6: after the message pipeline runs, the unread counter of every member of
the conversation other than the sender increases by exactly 1, and the sender's
own unread counter for the conversation is unchanged. -/
theorem sendMessage_unread_increments (pg : PgState) (rds : RedisState)
    (cid sender body u : String)
    (hnd : pg.members.Nodup)
    (hmem : (cid, u) ∈ pg.members)
    (hne : u ≠ sender) :
    unreadCountOf (persistAndFanoutMessage pg rds cid sender body).rds u cid
        = unreadCountOf rds u cid + 1
    ∧ unreadCountOf (persistAndFanoutMessage pg rds cid sender body).rds sender cid
        = unreadCountOf rds sender cid := by
  rw [persistAndFanoutMessage_rds]
  constructor
  · rw [bump_members_mem sender cid (getConversationMemberIds pg cid) u _
      (nodup_getConversationMemberIds pg cid hnd) (mem_getConversationMemberIds hmem) hne]
    simp [unreadCountOf, cachePushed]
  · rw [bump_members_sender sender cid (getConversationMemberIds pg cid) _]
    simp [unreadCountOf, cachePushed]

/-- C6 witness: alice sends "hi" in `c1`; bob's unread counter for `c1` goes
from 0 to 1 and alice's stays 0. -/
theorem sendMessage_unread_increments_witness :
    unreadCountOf (persistAndFanoutMessage pgA rds0 "c1" "alice" "hi").rds "bob" "c1"
        = unreadCountOf rds0 "bob" "c1" + 1
    ∧ unreadCountOf (persistAndFanoutMessage pgA rds0 "c1" "alice" "hi").rds "alice" "c1"
        = unreadCountOf rds0 "alice" "c1" :=
  sendMessage_unread_increments pgA rds0 "c1" "alice" "hi" "bob"
    (by decide) (by decide) (by decide)

theorem createOrGetDm_found_eq (pg : PgState) (a b : String) (c : Conversation)
    (h : findExistingDmConversation pg a b = some c) :
    createOrGetDmConversation pg a b
      = ({ conversation := c, members := getConversationMemberIds pg c.id,
           created := false }, pg) := by
  simp [createOrGetDmConversation, h]

theorem createOrGetDm_create_eq (pg : PgState) (a b : String)
    (h : findExistingDmConversation pg a b = none)
    (hab : a ≠ b)
    (hfreshM : ∀ m ∈ pg.members, m.1 ≠ freshConvId pg.nextConvId) :
    createOrGetDmConversation pg a b
      = ({ conversation := newConvOf pg,
           members := getConversationMemberIds (pgAfterDmCreate pg a b)
             (freshConvId pg.nextConvId),
           created := true }, pgAfterDmCreate pg a b) := by
  have hA : pg.members.any
      (fun m => m.1 == freshConvId pg.nextConvId && m.2 == a) = false :=
    any_false_list (fun m hm => by rw [beq_false_of_ne (hfreshM m hm)]; rfl)
  have hB : (pg.members ++ [(freshConvId pg.nextConvId, a)]).any
      (fun m => m.1 == freshConvId pg.nextConvId && m.2 == b) = false := by
    rw [List.any_append]
    rw [any_false_list (fun m hm => by rw [beq_false_of_ne (hfreshM m hm)]; rfl)]
    simp [beq_false_of_ne hab]
  simp [createOrGetDmConversation, h, insertMemberIfAbsent, hasMemberRow, hA, hB,
    pgAfterDmCreate, newConvOf]

theorem findExistingDm_after_create (pg : PgState) (a b : String)
    (h : findExistingDmConversation pg a b = none)
    (hfreshC : ∀ c ∈ pg.conversations, c.id ≠ freshConvId pg.nextConvId)
    (hfreshM : ∀ m ∈ pg.members, m.1 ≠ freshConvId pg.nextConvId) :
    findExistingDmConversation (pgAfterDmCreate pg a b) a b = some (newConvOf pg) := by
  show (pg.conversations ++ [newConvOf pg]).find?
      (fun c => dmMatches
        (pg.members ++ [(freshConvId pg.nextConvId, a), (freshConvId pg.nextConvId, b)]) c a b)
      = some (newConvOf pg)
  rw [find?_append_of_none]
  · have hpnew : dmMatches
        (pg.members ++ [(freshConvId pg.nextConvId, a), (freshConvId pg.nextConvId, b)])
        (newConvOf pg) a b = true :=
      dmMatches_new pg.members (newConvOf pg) a b rfl hfreshM
    exact List.find?_cons_of_pos _ hpnew
  · rw [find?_congr_list pg.conversations (fun x hx =>
      dmMatches_append pg.members _ x a b (fun e he => by
        have hne : freshConvId pg.nextConvId ≠ x.id :=
          fun hn => hfreshC x hx hn.symm
        rcases List.mem_cons.mp he with rfl | he2
        · exact hne
        · rcases List.mem_cons.mp he2 with rfl | he3
          · exact hne
          · cases he3))]
    exact h

/-- C4: starting from a state whose durable invariant holds (at most one DM
conversation for the unordered pair, and the fresh id is unused), a
`createOrGetDmConversation(a, b)` call leaves exactly one DM conversation for
the pair; a repeated call returns the same conversation with `created = false`
and does not change the durable state; and the swapped call
`createOrGetDmConversation(b, a)` returns that same conversation (symmetry). -/
theorem createOrGetDm_dedup_and_symmetric (pg : PgState) (a b : String)
    (hab : a ≠ b)
    (hinv : (pg.conversations.filter (fun c => dmMatches pg.members c a b)).length ≤ 1)
    (hfreshC : ∀ c ∈ pg.conversations, c.id ≠ freshConvId pg.nextConvId)
    (hfreshM : ∀ m ∈ pg.members, m.1 ≠ freshConvId pg.nextConvId) :
    (((createOrGetDmConversation pg a b).2.conversations.filter
        (fun c => dmMatches (createOrGetDmConversation pg a b).2.members c a b)).length = 1)
    ∧ (createOrGetDmConversation (createOrGetDmConversation pg a b).2 a b).1.conversation
        = (createOrGetDmConversation pg a b).1.conversation
    ∧ (createOrGetDmConversation (createOrGetDmConversation pg a b).2 a b).1.created = false
    ∧ (createOrGetDmConversation (createOrGetDmConversation pg a b).2 a b).2
        = (createOrGetDmConversation pg a b).2
    ∧ (createOrGetDmConversation (createOrGetDmConversation pg a b).2 b a).1.conversation
        = (createOrGetDmConversation pg a b).1.conversation
    ∧ (createOrGetDmConversation (createOrGetDmConversation pg a b).2 b a).2
        = (createOrGetDmConversation pg a b).2 := by
  cases h : findExistingDmConversation pg a b with
  | some c =>
      have he := createOrGetDm_found_eq pg a b c h
      have hba : findExistingDmConversation pg b a = some c := by
        rw [← findExistingDm_symm pg a b]
        exact h
      have heba := createOrGetDm_found_eq pg b a c hba
      have h2 : pg.conversations.find? (fun x => dmMatches pg.members x a b) = some c := h
      refine ⟨?_, ?_, ?_, ?_, ?_, ?_⟩
      · simp only [he]
        have hcmem : c ∈ pg.conversations := List.mem_of_find?_eq_some h2
        have hcp := @List.find?_some _ (fun x => dmMatches pg.members x a b) c
          pg.conversations h2
        have hmemf : c ∈ pg.conversations.filter (fun x => dmMatches pg.members x a b) :=
          List.mem_filter.mpr ⟨hcmem, hcp⟩
        have hpos : 0 < (pg.conversations.filter
            (fun x => dmMatches pg.members x a b)).length :=
          List.length_pos.mpr (List.ne_nil_of_mem hmemf)
        omega
      · simp only [he]
      · simp only [he]
      · simp only [he]
      · simp only [he, heba]
      · simp only [he, heba]
  | none =>
      have hce := createOrGetDm_create_eq pg a b h hab hfreshM
      have hf3 : findExistingDmConversation (pgAfterDmCreate pg a b) a b
          = some (newConvOf pg) := findExistingDm_after_create pg a b h hfreshC hfreshM
      have hf3b : findExistingDmConversation (pgAfterDmCreate pg a b) b a
          = some (newConvOf pg) := by
        rw [← findExistingDm_symm]
        exact hf3
      have he2 := createOrGetDm_found_eq (pgAfterDmCreate pg a b) a b (newConvOf pg) hf3
      have he2b := createOrGetDm_found_eq (pgAfterDmCreate pg a b) b a (newConvOf pg) hf3b
      have hallfalse : ∀ x ∈ pg.conversations, dmMatches pg.members x a b = false :=
        fun x hx => by
          have hnx := List.find?_eq_none.mp h x hx
          cases hpx : dmMatches pg.members x a b with
          | false => rfl
          | true => exact absurd hpx hnx
      refine ⟨?_, ?_, ?_, ?_, ?_, ?_⟩
      · simp only [hce]
        show ((pg.conversations ++ [newConvOf pg]).filter
            (fun c => dmMatches
              (pg.members ++
                [(freshConvId pg.nextConvId, a), (freshConvId pg.nextConvId, b)]) c a b)).length
          = 1
        rw [List.filter_append]
        have hold : pg.conversations.filter
            (fun c => dmMatches
              (pg.members ++
                [(freshConvId pg.nextConvId, a), (freshConvId pg.nextConvId, b)]) c a b)
            = [] :=
          filter_false_list (fun x hx => by
            rw [dmMatches_append pg.members _ x a b (fun e he => by
              have hne : freshConvId pg.nextConvId ≠ x.id :=
                fun hn => hfreshC x hx hn.symm
              rcases List.mem_cons.mp he with rfl | he2
              · exact hne
              · rcases List.mem_cons.mp he2 with rfl | he3
                · exact hne
                · cases he3)]
            exact hallfalse x hx)
        have hpnew : dmMatches
            (pg.members ++ [(freshConvId pg.nextConvId, a), (freshConvId pg.nextConvId, b)])
            (newConvOf pg) a b = true :=
          dmMatches_new pg.members (newConvOf pg) a b rfl hfreshM
        rw [hold, List.filter_cons, if_pos hpnew]
        rfl
      · simp only [hce, he2]
      · simp only [hce, he2]
      · simp only [hce, he2]
      · simp only [hce, he2b]
      · simp only [hce, he2b]

/-- C4 witness: starting from the empty store, creating the alice-bob DM leaves
exactly one matching DM conversation, and both the repeated call and the
swapped call return it with no further state change. -/
theorem createOrGetDm_dedup_and_symmetric_witness :
    (((createOrGetDmConversation pgEmpty "alice" "bob").2.conversations.filter
        (fun c => dmMatches (createOrGetDmConversation pgEmpty "alice" "bob").2.members
          c "alice" "bob")).length = 1)
    ∧ (createOrGetDmConversation
        (createOrGetDmConversation pgEmpty "alice" "bob").2 "alice" "bob").1.conversation
        = (createOrGetDmConversation pgEmpty "alice" "bob").1.conversation
    ∧ (createOrGetDmConversation
        (createOrGetDmConversation pgEmpty "alice" "bob").2 "alice" "bob").1.created = false
    ∧ (createOrGetDmConversation
        (createOrGetDmConversation pgEmpty "alice" "bob").2 "alice" "bob").2
        = (createOrGetDmConversation pgEmpty "alice" "bob").2
    ∧ (createOrGetDmConversation
        (createOrGetDmConversation pgEmpty "alice" "bob").2 "bob" "alice").1.conversation
        = (createOrGetDmConversation pgEmpty "alice" "bob").1.conversation
    ∧ (createOrGetDmConversation
        (createOrGetDmConversation pgEmpty "alice" "bob").2 "bob" "alice").2
        = (createOrGetDmConversation pgEmpty "alice" "bob").2 :=
  createOrGetDm_dedup_and_symmetric pgEmpty "alice" "bob"
    (by decide) (by decide) (by decide) (by decide)

end TeamFinder
